import Mathlib

/-!
Verification of the grainy-gradient core of `react-grainy`
(`src/components/GrainyGradient/utils.ts` and the canvas components).

The gradient description is parsed into an AST by the external package
`gradient-parser`; we embed that AST directly (`GradientNode`, `Orientation`,
`ColorStopNode`) and translate the repository's own functions over it:
`parseAngle`, `gradientInfluence`, `parseStopColor`, `parseStopPosition`,
`parseStops`, `parseGradient`, the gradient-shape validation at the top of
`renderGradient`, the 8-slot uniform-table padding loop of `renderGradient`,
`createNoiseSource`, and the animation-frame bookkeeping of the `Canvas`
component.

JavaScript numbers are embedded as follows: values that the translated code
can turn into `NaN` or `Infinity` are wrapped in the three-case type `JSNum`
(`nan`, `posInf`, `num` over `ℝ`); everything else uses `ℝ` (or `ℚ` where the
source only does rational arithmetic).  `parseInt` is modelled by
`jsParseInt`: it never throws — it skips leading whitespace, reads an optional
sign and then the longest leading digit run, and yields `none` (JavaScript's
`NaN`) when there is no digit.  (The `0x` hexadecimal prefix branch of
JavaScript's `parseInt` is elided: the literals reaching these call sites are
CSS numeric literals, which never carry it.)
-/

namespace ReactGrainy

/-! ### JavaScript numeric primitives -/

/-- A JavaScript number outcome: a real value, `NaN`, or positive infinity. -/
inductive JSNum where
  | nan : JSNum
  | posInf : JSNum
  | num : ℝ → JSNum

/-- Truncation toward zero, as JavaScript's implicit truncated division in `%`. -/
noncomputable def rtrunc (x : ℝ) : ℤ := if 0 ≤ x then ⌊x⌋ else ⌈x⌉

/-- JavaScript's `%` remainder on finite reals: `x - d * trunc (x / d)`. -/
noncomputable def jsRem (x d : ℝ) : ℝ := x - d * rtrunc (x / d)

/-- `mod(n, d) = ((n % d) + d) % d` from `utils.ts`, on finite values. -/
noncomputable def realJsMod (x d : ℝ) : ℝ := jsRem (jsRem x d + d) d

/-- `mod(n, d)` lifted to `JSNum`: `NaN` and `Infinity` inputs give `NaN`. -/
noncomputable def jsMod (x : JSNum) (d : ℝ) : JSNum :=
  match x with
  | .num v => .num (realJsMod v d)
  | _ => .nan

/-- Numeric value of a digit run. -/
def digitsVal (l : List Char) : Option ℕ :=
  let ds := l.takeWhile Char.isDigit
  if ds.isEmpty then none
  else some (ds.foldl (fun a c => a * 10 + (c.toNat - 48)) 0)

/-- JavaScript `parseInt` on a character list: skip whitespace, optional
sign, longest digit prefix; no digits means `NaN` (`none`).  It never throws. -/
def jsParseIntList (l : List Char) : Option ℤ :=
  match l.dropWhile Char.isWhitespace with
  | [] => none
  | c :: r =>
    if c = '-' then (digitsVal r).map (fun n => -(n : ℤ))
    else if c = '+' then (digitsVal r).map (fun n => (n : ℤ))
    else (digitsVal (c :: r)).map (fun n => (n : ℤ))

/-- JavaScript `parseInt` on a string. -/
def jsParseInt (s : String) : Option ℤ := jsParseIntList s.data

/-! ### The `gradient-parser` AST (external input shape) -/

/-- The named directions `gradient-parser` produces for a `DirectionalNode`. -/
inductive DirectionalValue where
  | left | top | bottom | right
  | leftTop | topLeft | leftBottom | bottomLeft
  | rightTop | topRight | rightBottom | bottomRight
deriving DecidableEq

/-- A gradient orientation: a named direction or a numeric angle literal. -/
inductive Orientation where
  | directional : DirectionalValue → Orientation
  | angular : String → Orientation
deriving DecidableEq

/-- The color payload of a stop as produced by `gradient-parser`. -/
inductive StopColor where
  | literal : String → StopColor
  | hex : String → StopColor
  | hsl : List String → StopColor
  | other : String → List String → StopColor
deriving DecidableEq

/-- Units of an explicit stop position (`len.type`); `pct` stands for the
catch-all `else` branch of `parseStopPosition` (percentages). -/
inductive LengthUnit where
  | px | em | pct
deriving DecidableEq

/-- An explicit stop length: unit plus numeric literal text. -/
structure LengthNode where
  unit : LengthUnit
  value : String
deriving DecidableEq

/-- A color stop node: color payload and optional explicit position. -/
structure ColorStopNode where
  color : StopColor
  length : Option LengthNode
deriving DecidableEq

/-- The `type` tag of a parsed gradient node. -/
inductive GradientTypeTag where
  | linearGradient | repeatingLinearGradient | radialGradient | repeatingRadialGradient
deriving DecidableEq

/-- One gradient node of the `gradient-parser` result list.  (For non-linear
gradients the orientation payload differs in the real AST; it is irrelevant
here because `renderGradient` throws before looking at it.) -/
structure GradientNode where
  gtype : GradientTypeTag
  orientation : Option Orientation
  colorStops : List ColorStopNode
deriving DecidableEq

/-! ### `parseAngle` -/

/-- The canonical angle of each named direction (the `switch` in `parseAngle`). -/
noncomputable def directionalAngle : DirectionalValue → ℝ
  | .left => Real.pi
  | .top => Real.pi / 2
  | .bottom => Real.pi * 3 / 2
  | .right => 0
  | .leftTop => Real.pi * 3 / 4
  | .topLeft => Real.pi * 3 / 4
  | .leftBottom => Real.pi * 5 / 4
  | .bottomLeft => Real.pi * 5 / 4
  | .rightTop => Real.pi / 4
  | .topRight => Real.pi / 4
  | .rightBottom => Real.pi * 7 / 4
  | .bottomRight => Real.pi * 7 / 4

/-- `parseAngle` from `utils.ts`.  A missing orientation yields `3π/2`; a
named direction yields its canonical angle; a numeric angle yields
`parseInt(value) / 180 * π + 3π/2`.  Because `parseInt` never throws, the
`catch (_) { return 0 }` branch is unreachable: an unparseable literal
produces `NaN` arithmetic, i.e. `JSNum.nan`. -/
noncomputable def parseAngle : Option Orientation → JSNum
  | none => .num (Real.pi * 3 / 2)
  | some (.directional v) => .num (directionalAngle v)
  | some (.angular s) =>
    match jsParseInt s with
    | some n => .num ((n : ℝ) / 180 * Real.pi + Real.pi * 3 / 2)
    | none => .nan

/-- The normalized angle `mod(parseAngle(gradient.orientation), Math.PI * 2)`
computed at the top of `parseGradient`. -/
noncomputable def normalizedAngle (o : Option Orientation) : JSNum :=
  jsMod (parseAngle o) (2 * Real.pi)

/-! ### `gradientInfluence` -/

/-- `gradientInfluence` from `utils.ts`: normalize the corner vector by
`max(sqrt(w² + h²), 1)`, dot it with `(cos angle, sin angle)`, clamp to
`[-1, 1]`, rescale to `[0, 1]`.  A `NaN`/`Infinity` angle propagates to
`NaN` (JavaScript `Math.cos`, `Math.min`, `Math.max` all propagate it). -/
noncomputable def gradientInfluence (w h : ℝ) (angle : JSNum) : JSNum :=
  match angle with
  | .num θ =>
    let aspectMagnitude := max (Real.sqrt (w * w + h * h)) 1
    let dotProduct :=
      w / aspectMagnitude * Real.cos θ + h / aspectMagnitude * Real.sin θ
    .num (min (max dotProduct (-1)) 1 * 0.5 + 0.5)
  | _ => .nan

/-! ### Stop colors and positions -/

/-- The CSS color string built by `parseStopColor` before handing it to the
external `values.js` resolver. -/
def colorString : StopColor → String
  | .literal s => s
  | .hex s => "#" ++ s
  | .hsl vals =>
    "hsl(" ++ vals.getD 0 "" ++ "deg, " ++ vals.getD 1 "" ++ "%, "
      ++ vals.getD 2 "" ++ "%)"
  | .other fn vals => fn ++ "(" ++ String.intercalate ", " vals ++ ")"

/-- `parseStopColor` from `utils.ts`, parameterized by the external
`values.js` resolution `values : String → ℝ × ℝ × ℝ` (its `rgb` field, on the
0–255 scale); the division by 255 is the repository's own code. -/
noncomputable def parseStopColor (values : String → ℝ × ℝ × ℝ) (stop : ColorStopNode) :
    ℝ × ℝ × ℝ :=
  let rgb := values (colorString stop.color)
  (rgb.1 / 255, rgb.2.1 / 255, rgb.2.2 / 255)

/-- `parseStopPosition` from `utils.ts`, with the root font size
(`getRemInPx()`, read from the host document) passed in as `remPx`.
`maxIndex = max(count - 1, 1)`.  A stop without an explicit length gets the
evenly-spaced position `index / maxIndex`.  With a length, the numeric literal
goes through `parseInt`; since `parseInt` never throws, the
`catch (_) { return index / maxIndex }` branches are unreachable and a
malformed literal produces `NaN` (`JSNum.nan`). -/
noncomputable def parseStopPosition (remPx : ℝ) (stop : ColorStopNode)
    (index count : ℕ) (diagonal : ℝ) : JSNum :=
  let maxIndex : ℕ := max (count - 1) 1
  match stop.length with
  | none => .num ((index : ℝ) / (maxIndex : ℝ))
  | some len =>
    match len.unit with
    | .px =>
      match jsParseInt len.value with
      | some n => .num ((n : ℝ) / diagonal)
      | none => .nan
    | .em =>
      match jsParseInt len.value with
      | some n => .num (remPx * (n : ℝ) / diagonal)
      | none => .nan
    | .pct =>
      match jsParseInt len.value with
      | some n => .num ((n : ℝ) / 100)
      | none => .nan

/-- The record returned by `parseStops`. -/
structure ParsedStops where
  count : ℕ
  colors : List (ℝ × ℝ × ℝ)
  offsets : List JSNum

/-- `parseStops` from `utils.ts`. -/
noncomputable def parseStops (values : String → ℝ × ℝ × ℝ) (remPx : ℝ)
    (stops : List ColorStopNode) (diagonal : ℝ) : ParsedStops where
  count := stops.length
  colors := stops.map (parseStopColor values)
  offsets := stops.mapIdx (fun i stop => parseStopPosition remPx stop i stops.length diagonal)

/-- The record returned by `parseGradient` (`ParsedGradient` in `utils.ts`);
`corners` is in the order top left, top right, bottom left, bottom right. -/
structure ParsedGradient where
  count : ℕ
  colors : List (ℝ × ℝ × ℝ)
  offsets : List JSNum
  corners : JSNum × JSNum × JSNum × JSNum

/-- `parseGradient` from `utils.ts` (over the linear gradient's orientation
and stops): normalize the parsed angle into `[0, 2π)`, pick `(iw, ih)` as
`(width, height)` when `preserveAspect` and `(1, 1)` otherwise, parse the
stops against the diagonal `max(sqrt(w² + h²), 1)`, and evaluate the four
corner influences. -/
noncomputable def parseGradient (values : String → ℝ × ℝ × ℝ) (remPx : ℝ)
    (g : GradientNode) (width height : ℝ) (preserveAspect : Bool) : ParsedGradient :=
  let angle := normalizedAngle g.orientation
  let iw : ℝ := if preserveAspect then width else 1
  let ih : ℝ := if preserveAspect then height else 1
  let stops := parseStops values remPx g.colorStops
    (max (Real.sqrt (width * width + height * height)) 1)
  { count := stops.count
    colors := stops.colors
    offsets := stops.offsets
    corners :=
      (gradientInfluence (-iw) ih angle,
       gradientInfluence iw ih angle,
       gradientInfluence (-iw) (-ih) angle,
       gradientInfluence iw (-ih) angle) }

/-! ### `renderGradient`: gradient-shape validation and uniform tables -/

/-- The validation at the top of `renderGradient` (`index.tsx` /
`Canvas`): exactly one parsed gradient, of type `linear-gradient`, with at
least one color stop; otherwise an error is thrown.  The accepted node is
passed on unchanged to `parseGradient`. -/
def checkParsedGradient : List GradientNode → Except String GradientNode
  | [data] =>
    if data.gtype ≠ .linearGradient then
      .error "only linear-gradient is supported at this time"
    else if data.colorStops.length < 1 then
      .error "gradient needs at least two color stops"
    else .ok data
  | _ => .error "can only support one gradient"

/-- One slot of the 24-float `u_colors` table built by `renderGradient`:
slot `i` holds `colors[i]` when `i < count` and replicates
`colors[count - 1]` otherwise.  (On the guarded path `count = colors.length ≥ 1`,
so the `getD` defaults are never consulted.) -/
noncomputable def stopTableColor (p : ParsedGradient) (i : ℕ) : ℝ × ℝ × ℝ :=
  if i < p.count then p.colors.getD i (0, 0, 0) else p.colors.getD (p.count - 1) (0, 0, 0)

/-- One slot of the 8-float `u_offsets` table built by `renderGradient`:
slot `i` holds `offsets[i]` when `i < count` and the sentinel `Infinity`
otherwise. -/
def stopTableOffset (p : ParsedGradient) (i : ℕ) : JSNum :=
  if i < p.count then p.offsets.getD i .nan else .posInf

/-! ### `createNoiseSource` -/

/-- The seed accepted by `createNoiseSource`: a string or a number (the
numeric seeds used by the component are integers, e.g. `0xcafe`). -/
inductive SeedVal where
  | str : String → SeedVal
  | num : ℤ → SeedVal
deriving DecidableEq

/-- `seed.toString()`: a string seed is itself, a numeric seed is rendered
in decimal. -/
def seedKey : SeedVal → String
  | .str s => s
  | .num n => toString n

/-- `Uint8ClampedArray` byte clamping. -/
def clampByte (z : ℤ) : ℕ := (max 0 (min 255 z)).toNat

/-- `createNoiseSource` from `utils.ts`, parameterized by the external
deterministic generator `seedrandom`: `rng key i` is the `i`-th output of the
generator seeded with the string `key`.  Pixel `i` of the `size × size` image
gets the grayscale value `floor(rng() * 255)` in R, G and B and alpha 255;
the flattened byte list is the `ImageData` payload. -/
def createNoiseSource (rng : String → ℕ → ℚ) (seed : SeedVal) (size : ℕ) : List ℕ :=
  (List.range (size * size)).flatMap (fun i =>
    let val := clampByte ⌊rng (seedKey seed) i * 255⌋
    [val, val, val, 255])

/-! ### Frame timing (`Canvas.render` in the canvas module) -/

/-- `SHIMMER_FACTOR = 1.0 / 1000.0 / 60.0 / 10.0` from `utils.ts`. -/
def SHIMMER_FACTOR : ℚ := 1 / 1000 / 60 / 10

/-- The `time` value passed to a function-valued gradient on a draw:
`initialTime + performance.now()`. -/
def gradientFnTime (initialTime now : ℚ) : ℚ := initialTime + now

/-- The `grainOffset` argument `render` passes to `renderGradient`:
`effectiveShimmer * now` (note: without `initialTime`). -/
def grainOffsetArg (shimmerSpeed now : ℚ) : ℚ := shimmerSpeed * now

/-- The scalar uploaded to `u_tex_offset` by `renderGradient`:
`grainOffset * SHIMMER_FACTOR`. -/
def texOffsetUniform (grainOffset : ℚ) : ℚ := grainOffset * SHIMMER_FACTOR

/-! ### Animation driver (the `Canvas` animation effect)

The animation bookkeeping of the `Canvas` component, with the browser's
`requestAnimationFrame` queue made explicit.  `pending` is the queue of
scheduled callback ids (every scheduled callback is the `render` closure, or
the `() => render()` one-shot wrapper, which behaves identically); `ref` is
the mutable `animationFrameId` ref cell; `nextId` is the next id the browser
hands out (browsers use positive ids, so `1` is the first); `draws` counts
completed `renderGradient` calls.  The WebGL context, program and noise
texture are taken as already initialized, so `render` never early-returns. -/

structure DriverState where
  pending : List ℕ
  ref : Option ℕ
  nextId : ℕ
  draws : ℕ
deriving DecidableEq

/-- The driver state right after mount, before any effect has run. -/
def initState : DriverState := { pending := [], ref := none, nextId := 1, draws := 0 }

/-- One execution of the `render` callback: draw, then — only when
`animationFrameId.current !== null` — schedule a follow-up frame.  The id
returned by that `requestAnimationFrame(render)` call is discarded by the
source, so `ref` is not updated. -/
def renderStep (s : DriverState) : DriverState :=
  if s.ref.isSome then
    { s with draws := s.draws + 1, pending := s.pending ++ [s.nextId], nextId := s.nextId + 1 }
  else
    { s with draws := s.draws + 1 }

/-- `cancelAnimationFrame(id)`: remove the callback with that id, if still
pending. -/
def cancelFrame (id : ℕ) (s : DriverState) : DriverState :=
  { s with pending := s.pending.filter (fun x => x ≠ id) }

/-- The animation effect's cleanup:
`if (animationFrameId.current) cancelAnimationFrame(animationFrameId.current)`. -/
def effectCleanup (s : DriverState) : DriverState :=
  match s.ref with
  | some id => cancelFrame id s
  | none => s

/-- The animation effect's body: when animated, schedule `render` and store
the id in the ref; otherwise null the ref and schedule the one-shot
`() => render()` (whose id is discarded). -/
def effectBody (animated : Bool) (s : DriverState) : DriverState :=
  if animated then
    { s with pending := s.pending ++ [s.nextId], ref := some s.nextId, nextId := s.nextId + 1 }
  else
    { s with ref := none, pending := s.pending ++ [s.nextId], nextId := s.nextId + 1 }

/-- A dependency change: React runs the previous effect's cleanup, then the
effect body with the new `animated` value. -/
def effectRerun (animated : Bool) (s : DriverState) : DriverState :=
  effectBody animated (effectCleanup s)

/-- One display refresh: the browser takes the callbacks queued at frame
start and runs them all; callbacks they schedule run on a later frame. -/
def runFrame (s : DriverState) : DriverState :=
  renderStep^[s.pending.length] { s with pending := [] }

/-- `const animated = (typeof gradient === 'function' || effectiveShimmer > 0) && !paused`. -/
def isAnimated (gradientIsFn : Bool) (shimmerSpeed : ℚ) (paused : Bool) : Bool :=
  (gradientIsFn || decide (0 < shimmerSpeed)) && !paused

/-! ### Shared concrete inputs for witnesses and counterexamples -/

/-- A trivial stand-in for the external `values.js` color resolution. -/
def vtriv : String → ℝ × ℝ × ℝ := fun _ => (0, 0, 0)

/-- A minimal color stop with no explicit position. -/
def defaultStop : ColorStopNode := { color := .literal "red", length := none }

/-- A second color stop, hex-colored, positioned at `40px`. -/
def pxStop : ColorStopNode := { color := .hex "ffffff", length := some ⟨.px, "40"⟩ }

/-- Whether the orientation's angle survives `parseAngle` as a finite number:
always, except for an angular literal that `parseInt` cannot read.  Named
directions, missing orientations and angular literals with a leading digit
run (optionally signed) satisfy this; a leading-dot decimal literal such as
`".5"` — which `gradient-parser`'s angle grammar admits — does not, and makes
`parseAngle` produce `NaN`. -/
def angleParsesB : Option Orientation → Bool
  | some (.angular s) => (jsParseInt s).isSome
  | _ => true

/-- Membership of a `JSNum` in the closed unit interval (false for `NaN` and
`Infinity`). -/
def JSNum.inUnit : JSNum → Prop
  | .num r => 0 ≤ r ∧ r ≤ 1
  | _ => False

/-- Modelled from the spec's wording of the corner computation (C6), for the
corner with signs `(cx, cy) ∈ {±1}²`: dot the direction
`(cos θ, sin θ)` with the corner vector — `(±width, ±height)` divided by
`max(sqrt(width² + height²), 1)` when `preserveAspect`, else the
*unnormalized* `(±1, ±1)` — clamp to `[-1, 1]` and rescale by `* 0.5 + 0.5`. -/
noncomputable def specCornerClaim (θ w h : ℝ) (pa : Bool) (cx cy : ℝ) : ℝ :=
  if pa then
    min (max (Real.cos θ * (cx * w / max (Real.sqrt (w * w + h * h)) 1)
      + Real.sin θ * (cy * h / max (Real.sqrt (w * w + h * h)) 1)) (-1)) 1 * 0.5 + 0.5
  else
    min (max (Real.cos θ * cx + Real.sin θ * cy) (-1)) 1 * 0.5 + 0.5

/-- The corner formula amended to what the code computes: identical to
`specCornerClaim` except that with `preserveAspect = false` the corner vector
`(±1, ±1)` is still normalized — by `max(sqrt(1² + 1²), 1) = sqrt 2`. -/
noncomputable def specCornerAmended (θ w h : ℝ) (pa : Bool) (cx cy : ℝ) : ℝ :=
  if pa then
    min (max (Real.cos θ * (cx * w / max (Real.sqrt (w * w + h * h)) 1)
      + Real.sin θ * (cy * h / max (Real.sqrt (w * w + h * h)) 1)) (-1)) 1 * 0.5 + 0.5
  else
    min (max (Real.cos θ * (cx / Real.sqrt 2) + Real.sin θ * (cy / Real.sqrt 2)) (-1)) 1
      * 0.5 + 0.5

/-! ### Helper lemmas on the JavaScript primitives -/

lemma takeWhile_append_stop (p : Char → Bool) (l m : List Char) (c : Char)
    (hc : p c = false) : (l ++ c :: m).takeWhile p = l.takeWhile p := by
  induction l with
  | nil => simp [List.takeWhile_cons, hc]
  | cons x xs ih => by_cases hx : p x <;> simp [List.takeWhile_cons, hx, ih]

lemma digitsVal_append_dot (l m : List Char) :
    digitsVal (l ++ '.' :: m) = digitsVal l := by
  unfold digitsVal
  rw [takeWhile_append_stop _ _ _ _ (by decide : Char.isDigit '.' = false)]

/-- JavaScript `parseInt` stops at the decimal point: appending `"." ++ b` to
any string never changes the result. -/
lemma jsParseIntList_append_dot (l m : List Char) :
    jsParseIntList (l ++ '.' :: m) = jsParseIntList l := by
  unfold jsParseIntList
  rw [List.dropWhile_append]
  cases h : l.dropWhile Char.isWhitespace with
  | nil =>
    simp only [List.isEmpty_nil, if_true]
    rw [List.dropWhile_cons_of_neg (by decide : ¬ (Char.isWhitespace '.' = true))]
    have : digitsVal ('.' :: m) = none := by
      unfold digitsVal
      simp [List.takeWhile_cons, (by decide : Char.isDigit '.' = false)]
    simp [this]
  | cons c r =>
    simp only [List.isEmpty_cons, if_false, List.cons_append]
    by_cases hminus : c = '-'
    · simp [hminus, digitsVal_append_dot]
    · by_cases hplus : c = '+'
      · simp [hminus, hplus, digitsVal_append_dot]
      · have : digitsVal (c :: (r ++ '.' :: m)) = digitsVal (c :: r) := by
          have := digitsVal_append_dot (c :: r) m
          simpa using this
        simp [hminus, hplus, this]

lemma jsParseInt_append_dot (a b : String) :
    jsParseInt (a ++ "." ++ b) = jsParseInt a := by
  unfold jsParseInt
  have : (a ++ "." ++ b).data = a.data ++ '.' :: b.data := by
    simp [String.data_append]
  rw [this, jsParseIntList_append_dot]

/-! ### C1 -/

/-- C1: the draw path's gradient validation accepts exactly the descriptions
that encode a single `linear-gradient` with at least one color stop, passing
the parsed node through unchanged (never silently defaulted); every other
shape — a radial gradient, two comma-separated gradients, zero stops — is
rejected with a thrown (fatal) error. -/
theorem checkParsedGradient_ok_iff (parsed : List GradientNode) (g : GradientNode) :
    checkParsedGradient parsed = .ok g ↔
      parsed = [g] ∧ g.gtype = .linearGradient ∧ 1 ≤ g.colorStops.length := by
  rcases parsed with _ | ⟨x, _ | ⟨y, rest⟩⟩
  · simp [checkParsedGradient]
  · show (if x.gtype ≠ .linearGradient then
        (.error "only linear-gradient is supported at this time" : Except String GradientNode)
      else if x.colorStops.length < 1 then
        .error "gradient needs at least two color stops"
      else .ok x) = .ok g ↔ _
    split_ifs with h1 h2
    · constructor
      · intro hc; cases hc
      · rintro ⟨hx, hg, -⟩
        cases hx
        exact absurd hg h1
    · constructor
      · intro hc; cases hc
      · rintro ⟨hx, -, hlen⟩
        cases hx
        omega
    · constructor
      · intro hc
        cases hc
        refine ⟨rfl, by simpa using h1, by omega⟩
      · rintro ⟨hx, -, -⟩
        cases hx
        rfl
  · simp [checkParsedGradient]

/-! ### C2 -/

/-- C2 (evidence of the code bug): at the failing inputs — an angular
orientation whose literal is `"abc"`, and a `px` stop position whose literal
is `"abc"` — the code produces `NaN` (because `parseInt` never throws, the
`catch` fallbacks to angle `0` and to the evenly-spaced position are dead
code), instead of the documented silent defaults. -/
theorem unitParseFallback_is_dead_code :
    parseAngle (some (.angular "abc")) = .nan ∧
    parseStopPosition 16 { color := .literal "red", length := some ⟨.px, "abc"⟩ } 0 2 5
      = .nan ∧
    JSNum.nan ≠ JSNum.num ((0 : ℝ) / 1) := by
  refine ⟨rfl, rfl, ?_⟩
  intro h
  cases h

/-! ### C9 -/

/-- C9 (counterexample): with `initialTime = 600000`, `now = 0` and
`shimmerSpeed = 1`, the texture-offset uniform computed by the code is `0`,
not the claimed `shimmerSpeed * (initialTime + now) * SHIMMER_FACTOR = 1`. -/
theorem texOffset_ignores_initialTime :
    texOffsetUniform (grainOffsetArg 1 0)
      ≠ 1 * gradientFnTime 600000 0 * SHIMMER_FACTOR := by
  norm_num [texOffsetUniform, grainOffsetArg, gradientFnTime, SHIMMER_FACTOR]

/-- C9 (amended): `initialTime` is added to the elapsed time passed to a
function-valued gradient (`time = initialTime + now`), but the texture-offset
uniform is `shimmerSpeed * now * SHIMMER_FACTOR`, without `initialTime`. -/
theorem initialTime_in_gradient_time_only (initialTime now shimmerSpeed : ℚ) :
    gradientFnTime initialTime now = initialTime + now ∧
    texOffsetUniform (grainOffsetArg shimmerSpeed now)
      = shimmerSpeed * now * SHIMMER_FACTOR := ⟨rfl, rfl⟩

/-! ### C10 -/

/-- C10: numeric literals in an orientation angle or stop position are parsed
with integer truncation: for any literal of the form `a ++ "." ++ b` the
fractional part is discarded — the angle and every stop-position unit
evaluate exactly as they do on the leading integer literal `a`
(e.g. `45.9deg` is evaluated as `45deg`). -/
theorem numeric_literal_truncation (a b : String) (remPx diagonal : ℝ)
    (color : StopColor) (u : LengthUnit) (index count : ℕ) :
    parseAngle (some (.angular (a ++ "." ++ b))) = parseAngle (some (.angular a)) ∧
    parseStopPosition remPx { color := color, length := some ⟨u, a ++ "." ++ b⟩ }
        index count diagonal
      = parseStopPosition remPx { color := color, length := some ⟨u, a⟩ }
        index count diagonal := by
  have key := jsParseInt_append_dot a b
  constructor
  · simp only [parseAngle, key]
  · cases u <;> simp only [parseStopPosition, key]

/-! ### C8 -/

lemma iterate_renderStep_ref_none (n : ℕ) (t : DriverState) (h : t.ref = none) :
    (renderStep^[n] t).pending = t.pending ∧ (renderStep^[n] t).draws = t.draws + n ∧
    (renderStep^[n] t).ref = none := by
  induction n generalizing t with
  | zero => simpa using h
  | succ n ih =>
    rw [Function.iterate_succ_apply]
    have hstep : renderStep t = { t with draws := t.draws + 1 } := by
      simp [renderStep, h]
    rw [hstep]
    obtain ⟨h1, h2, h3⟩ := ih { t with draws := t.draws + 1 } h
    refine ⟨h1, ?_, h3⟩
    rw [h2]
    show t.draws + 1 + n = t.draws + (n + 1)
    omega

/-- C8 (counterexample): starting from a mounted animating pipeline
(function gradient, `shimmerSpeed = 0`, not paused), after one frame a
dependency change leaves TWO callbacks in flight (the draw-scheduled
continuation's id was discarded by the source, so the effect cleanup cancels
a stale id); likewise, setting `paused = true` does not cancel the pending
continuation (id 2 stays queued) and the following frame still performs two
draws (total 3) instead of zero. -/
theorem animation_cancellation_misses_continuation :
    ¬ ((effectRerun true
        (runFrame (effectBody (isAnimated true 0 false) initState))).pending.length ≤ 1)
    ∧ 2 ∈ (effectRerun false
        (runFrame (effectBody (isAnimated true 0 false) initState))).pending
    ∧ (runFrame (effectRerun false
        (runFrame (effectBody (isAnimated true 0 false) initState)))).draws = 3 := by
  have ha : isAnimated true 0 false = true := by norm_num [isAnimated]
  rw [ha]
  refine ⟨by decide, by decide, by decide⟩

/-- C8 (amended): (a) a static configuration (string gradient,
`shimmerSpeed = 0`, not paused) performs exactly one draw and leaves no
scheduled continuation, and further frames change nothing; (b) in the
animating state (`ref` holds an id) every completed draw schedules exactly
one follow-up; (c) once the stored id is nulled (as the pause/static effect
does), each still-pending callback — the surviving continuation is not
cancelled — draws once more without rescheduling, after which no callbacks
remain; (d) the effect re-run for a non-animated configuration always nulls
the stored id. -/
theorem animation_two_state_policy :
    ((runFrame (effectBody (isAnimated false 0 false) initState)).draws = 1
      ∧ (runFrame (effectBody (isAnimated false 0 false) initState)).pending = []
      ∧ runFrame (runFrame (effectBody (isAnimated false 0 false) initState))
          = runFrame (effectBody (isAnimated false 0 false) initState))
    ∧ (∀ s : DriverState, s.ref.isSome = true →
        (renderStep s).pending.length = s.pending.length + 1
          ∧ (renderStep s).draws = s.draws + 1)
    ∧ (∀ s : DriverState, s.ref = none →
        (runFrame s).pending = [] ∧ (runFrame s).draws = s.draws + s.pending.length)
    ∧ (∀ s : DriverState, (effectRerun false s).ref = none) := by
  refine ⟨?_, ?_, ?_, ?_⟩
  · have ha : isAnimated false 0 false = false := by norm_num [isAnimated]
    rw [ha]
    refine ⟨by decide, by decide, by decide⟩
  · intro s hs
    constructor <;> simp [renderStep, hs]
  · intro s hs
    obtain ⟨h1, h2, -⟩ :=
      iterate_renderStep_ref_none s.pending.length { s with pending := [] } hs
    exact ⟨h1, h2⟩
  · intro s
    simp [effectRerun, effectBody]

/-- C8 (witness for the amended theorem): in an animating state with one
pending callback, a completed draw leaves two pending callbacks, and a state
whose stored id is nulled drains its queue in one frame. -/
theorem animation_two_state_policy_witness :
    (renderStep { pending := [5], ref := some 7, nextId := 9, draws := 3 }).pending.length = 1 + 1
    ∧ (runFrame { pending := [5, 6], ref := none, nextId := 9, draws := 3 }).pending = [] := by
  constructor
  · exact (animation_two_state_policy.2.1
      { pending := [5], ref := some 7, nextId := 9, draws := 3 } rfl).1
  · exact (animation_two_state_policy.2.2.1
      { pending := [5, 6], ref := none, nextId := 9, draws := 3 } rfl).1

/-! ### C4 -/

lemma getD_map_of_lt {α β : Type} (f : α → β) (l : List α) (j : ℕ)
    (hj : j < l.length) (d : α) (d' : β) :
    (l.map f).getD j d' = f (l.getD j d) := by
  rw [List.getD_eq_getElem _ _ (by simpa using hj), List.getElem_map,
    List.getD_eq_getElem _ _ hj]

lemma getD_mapIdx_of_lt {α β : Type} (f : ℕ → α → β) (l : List α) (j : ℕ)
    (hj : j < l.length) (d : α) (d' : β) :
    (l.mapIdx f).getD j d' = f j (l.getD j d) := by
  rw [List.getD_eq_getElem _ _ (by simpa using hj), List.getElem_mapIdx,
    List.getD_eq_getElem _ _ hj]

/-- C4: for a gradient with `k` stops, `1 ≤ k ≤ 8`, the 8-slot uniform tables
built by `renderGradient` replicate the final stop's color and use the
sentinel `Infinity` offset in every slot `k ≤ i < 8`, while slots `i < k`
hold the parsed stop colors and stop offsets in input order. -/
theorem stop_table_padding (values : String → ℝ × ℝ × ℝ) (remPx : ℝ)
    (g : GradientNode) (w h : ℝ) (pa : Bool) (i : ℕ)
    (hk1 : 1 ≤ g.colorStops.length) (hk8 : g.colorStops.length ≤ 8) (_hi : i < 8) :
    (g.colorStops.length ≤ i →
      stopTableColor (parseGradient values remPx g w h pa) i
          = parseStopColor values (g.colorStops.getD (g.colorStops.length - 1) defaultStop)
        ∧ stopTableOffset (parseGradient values remPx g w h pa) i = .posInf)
    ∧ (i < g.colorStops.length →
      stopTableColor (parseGradient values remPx g w h pa) i
          = parseStopColor values (g.colorStops.getD i defaultStop)
        ∧ stopTableOffset (parseGradient values remPx g w h pa) i
          = parseStopPosition remPx (g.colorStops.getD i defaultStop) i
              g.colorStops.length (max (Real.sqrt (w * w + h * h)) 1)) := by
  have hcount : (parseGradient values remPx g w h pa).count = g.colorStops.length := rfl
  have hcolors : (parseGradient values remPx g w h pa).colors
      = g.colorStops.map (parseStopColor values) := rfl
  have hoffsets : (parseGradient values remPx g w h pa).offsets
      = g.colorStops.mapIdx (fun j s => parseStopPosition remPx s j g.colorStops.length
          (max (Real.sqrt (w * w + h * h)) 1)) := rfl
  constructor
  · intro hki
    have hnot : ¬ (i < (parseGradient values remPx g w h pa).count) := by omega
    constructor
    · rw [stopTableColor, if_neg hnot, hcolors, hcount,
        getD_map_of_lt _ _ _ (by omega) defaultStop]
    · rw [stopTableOffset, if_neg hnot]
  · intro hik
    have hlt : i < (parseGradient values remPx g w h pa).count := by omega
    constructor
    · rw [stopTableColor, if_pos hlt, hcolors,
        getD_map_of_lt _ _ _ (by omega) defaultStop]
    · rw [stopTableOffset, if_pos hlt, hoffsets,
        getD_mapIdx_of_lt _ _ _ (by omega) defaultStop]

/-- C4 (witness): for the two-stop gradient `[defaultStop, pxStop]` at size
`3 × 4`, slot 5 replicates the second stop's color with the `Infinity`
sentinel, and slot 1 holds the second stop's parsed color and position. -/
theorem stop_table_padding_witness :
    (stopTableColor (parseGradient vtriv 16
        { gtype := .linearGradient, orientation := none,
          colorStops := [defaultStop, pxStop] } 3 4 true) 5
      = parseStopColor vtriv pxStop
    ∧ stopTableOffset (parseGradient vtriv 16
        { gtype := .linearGradient, orientation := none,
          colorStops := [defaultStop, pxStop] } 3 4 true) 5 = .posInf)
    ∧ (stopTableColor (parseGradient vtriv 16
        { gtype := .linearGradient, orientation := none,
          colorStops := [defaultStop, pxStop] } 3 4 true) 1
      = parseStopColor vtriv pxStop
    ∧ stopTableOffset (parseGradient vtriv 16
        { gtype := .linearGradient, orientation := none,
          colorStops := [defaultStop, pxStop] } 3 4 true) 1
      = parseStopPosition 16 pxStop 1 2 (max (Real.sqrt (3 * 3 + 4 * 4)) 1)) := by
  have h := stop_table_padding vtriv 16
    { gtype := .linearGradient, orientation := none,
      colorStops := [defaultStop, pxStop] } 3 4 true 5
    (by decide) (by decide) (by decide)
  have h1 := stop_table_padding vtriv 16
    { gtype := .linearGradient, orientation := none,
      colorStops := [defaultStop, pxStop] } 3 4 true 1
    (by decide) (by decide) (by decide)
  exact ⟨h.1 (by decide), h1.2 (by decide)⟩

/-! ### C7 -/

/-- C7: `createNoiseSource` is a pure function of the seed's string key and
the size — numeric and string seeds are unified through `seed.toString()` —
and (given that the external generator produces values in `[0, 1)`, as
`seedrandom` does) the produced byte list is exactly the `size × size` grid
whose pixel `i` is `floor(rng_i * 255)` replicated into R, G, B with alpha
255, of total length `4·size²`.  Two calls with identical `(seed, size)`
evaluate to this same list. -/
theorem createNoiseSource_pure_structure (rng : String → ℕ → ℚ)
    (hr : ∀ s j, 0 ≤ rng s j ∧ rng s j < 1) (seed : SeedVal) (size : ℕ) :
    createNoiseSource rng seed size = createNoiseSource rng (.str (seedKey seed)) size ∧
    createNoiseSource rng seed size
      = (List.range (size * size)).flatMap (fun i =>
          [(⌊rng (seedKey seed) i * 255⌋).toNat, (⌊rng (seedKey seed) i * 255⌋).toNat,
            (⌊rng (seedKey seed) i * 255⌋).toNat, 255]) ∧
    (createNoiseSource rng seed size).length = 4 * (size * size) := by
  have hclamp : ∀ i, clampByte ⌊rng (seedKey seed) i * 255⌋
      = (⌊rng (seedKey seed) i * 255⌋).toNat := by
    intro i
    obtain ⟨h0, h1⟩ := hr (seedKey seed) i
    have hf0 : 0 ≤ ⌊rng (seedKey seed) i * 255⌋ := Int.floor_nonneg.2 (by positivity)
    have hf1 : ⌊rng (seedKey seed) i * 255⌋ ≤ 255 := by
      have hx : rng (seedKey seed) i * 255 < 255 := by nlinarith
      have hlt : ⌊rng (seedKey seed) i * 255⌋ < (255 : ℤ) :=
        Int.floor_lt.2 (by push_cast; linarith)
      exact hlt.le
    rw [clampByte, min_eq_right hf1, max_eq_right hf0]
  refine ⟨rfl, ?_, ?_⟩
  · rw [createNoiseSource]
    congr 1
    funext i
    rw [hclamp i]
  · rw [createNoiseSource]
    simp [List.length_flatMap, Function.comp_def, List.map_const', List.sum_replicate,
      smul_eq_mul]
    ring

/-- C7 (witness): a concrete generator with all outputs `1/2` on the numeric
seed `0xcafe = 51966` at size 2. -/
theorem createNoiseSource_pure_structure_witness :
    createNoiseSource (fun _ _ => (1 : ℚ)/2) (.num 51966) 2
      = createNoiseSource (fun _ _ => (1 : ℚ)/2) (.str (seedKey (.num 51966))) 2 ∧
    createNoiseSource (fun _ _ => (1 : ℚ)/2) (.num 51966) 2
      = (List.range (2 * 2)).flatMap (fun i =>
          [(⌊(fun (_ : String) (_ : ℕ) => (1 : ℚ)/2) (seedKey (.num 51966)) i * 255⌋).toNat,
            (⌊(fun (_ : String) (_ : ℕ) => (1 : ℚ)/2) (seedKey (.num 51966)) i * 255⌋).toNat,
            (⌊(fun (_ : String) (_ : ℕ) => (1 : ℚ)/2) (seedKey (.num 51966)) i * 255⌋).toNat,
            255]) ∧
    (createNoiseSource (fun _ _ => (1 : ℚ)/2) (.num 51966) 2).length = 4 * (2 * 2) :=
  createNoiseSource_pure_structure (fun _ _ => (1 : ℚ)/2)
    (fun s j => by norm_num) (.num 51966) 2

/-! ### Real-number helper lemmas -/

lemma jsMod_num (v d : ℝ) : jsMod (.num v) d = .num (realJsMod v d) := rfl

lemma jsRem_eq (x d r : ℝ) (k : ℤ) (hd : 0 < d) (hx : 0 ≤ x)
    (hxk : x = d * k + r) (h0 : 0 ≤ r) (h1 : r < d) : jsRem x d = r := by
  have hdiv : x / d = (k : ℝ) + r / d := by
    rw [hxk]
    field_simp
    ring
  have hfloor : ⌊x / d⌋ = k := by
    rw [hdiv, add_comm, Int.floor_add_int]
    have : ⌊r / d⌋ = 0 := by
      rw [Int.floor_eq_zero_iff]
      exact ⟨div_nonneg h0 hd.le, (div_lt_one hd).2 h1⟩
    omega
  have htr : rtrunc (x / d) = k := by
    rw [rtrunc, if_pos (div_nonneg hx hd.le)]
    exact hfloor
  rw [jsRem, htr, hxk]
  ring

lemma realJsMod_eq (x d r : ℝ) (k : ℤ) (hd : 0 < d) (hx : 0 ≤ x)
    (hxk : x = d * k + r) (h0 : 0 ≤ r) (h1 : r < d) : realJsMod x d = r := by
  have h2 : jsRem x d = r := jsRem_eq x d r k hd hx hxk h0 h1
  rw [realJsMod, h2]
  exact jsRem_eq (r + d) d r 1 hd (by linarith) (by push_cast; ring) h0 h1

lemma sqrt2_pos : 0 < Real.sqrt 2 := Real.sqrt_pos.2 (by norm_num)

lemma sqrt2_gt_one : (1 : ℝ) < Real.sqrt 2 := by
  nlinarith [Real.sq_sqrt (show (0:ℝ) ≤ 2 by norm_num), Real.sqrt_nonneg 2]

lemma sqrt2_ge_one : (1 : ℝ) ≤ Real.sqrt 2 := sqrt2_gt_one.le

lemma gradientInfluence_num (w h θ : ℝ) :
    gradientInfluence w h (.num θ) =
      .num (min (max (w / max (Real.sqrt (w * w + h * h)) 1 * Real.cos θ
        + h / max (Real.sqrt (w * w + h * h)) 1 * Real.sin θ) (-1)) 1 * 0.5 + 0.5) := rfl

lemma clampRescale_congr {D E : ℝ} (h : D = E) :
    min (max D (-1)) 1 * 0.5 + 0.5 = min (max E (-1)) 1 * 0.5 + 0.5 := by rw [h]

lemma parseAngle_angular_of_parse (s : String) (n : ℤ) (h : jsParseInt s = some n) :
    parseAngle (some (.angular s)) = .num ((n : ℝ) / 180 * Real.pi + Real.pi * 3 / 2) := by
  simp only [parseAngle, h]

/-- The default (missing) orientation normalizes to `3π/2`. -/
lemma normalizedAngle_none : normalizedAngle none = .num (Real.pi * 3 / 2) := by
  have hpi := Real.pi_pos
  rw [normalizedAngle, show parseAngle none = .num (Real.pi * 3 / 2) from rfl, jsMod_num]
  congr 1
  exact realJsMod_eq _ _ _ 0 (by linarith) (by linarith) (by push_cast; ring)
    (by linarith) (by linarith)

/-- The direction `right` normalizes to angle `0`. -/
lemma normalizedAngle_right : normalizedAngle (some (.directional .right)) = .num 0 := by
  have hpi := Real.pi_pos
  rw [normalizedAngle, show parseAngle (some (.directional .right)) = .num 0 from rfl,
    jsMod_num]
  congr 1
  exact realJsMod_eq _ _ _ 0 (by linarith) le_rfl (by push_cast; ring) le_rfl (by linarith)

/-- The numeric angle `180deg` normalizes to `π/2` (not to the default's
`3π/2`): `180/180·π + 3π/2 = 5π/2 ≡ π/2 (mod 2π)`. -/
lemma normalizedAngle_angular180 :
    normalizedAngle (some (.angular "180")) = .num (Real.pi / 2) := by
  have hpi := Real.pi_pos
  rw [normalizedAngle, parseAngle_angular_of_parse "180" 180 rfl, jsMod_num]
  congr 1
  refine realJsMod_eq _ _ _ 1 (by linarith) (by nlinarith) ?_ (by linarith) (by linarith)
  push_cast
  ring

lemma cos_three_half_pi : Real.cos (Real.pi * 3 / 2) = 0 := by
  rw [show Real.pi * 3 / 2 = Real.pi + Real.pi / 2 by ring, Real.cos_add]
  simp

lemma sin_three_half_pi : Real.sin (Real.pi * 3 / 2) = -1 := by
  rw [show Real.pi * 3 / 2 = Real.pi + Real.pi / 2 by ring, Real.sin_add]
  simp

/-! ### C5 -/

/-- C5 (counterexample): the default orientation does NOT match `180deg`.
Their normalized angles differ (`3π/2` vs `π/2`), and on the unit square
with `preserveAspect = false` the top-left corner blend factors differ
(`1/2 - 1/(2√2)` vs `1/2 + 1/(2√2)`). -/
theorem default_orientation_ne_180deg :
    normalizedAngle none ≠ normalizedAngle (some (.angular "180")) ∧
    (parseGradient vtriv 16
        { gtype := .linearGradient, orientation := none, colorStops := [defaultStop] }
        1 1 false).corners.1
      ≠ (parseGradient vtriv 16
        { gtype := .linearGradient, orientation := some (.angular "180"),
          colorStops := [defaultStop] }
        1 1 false).corners.1 := by
  have hpi := Real.pi_pos
  constructor
  · rw [normalizedAngle_none, normalizedAngle_angular180]
    intro h
    rw [JSNum.num.injEq] at h
    linarith
  · have e1 : (parseGradient vtriv 16
        { gtype := .linearGradient, orientation := none, colorStops := [defaultStop] }
        1 1 false).corners.1
        = gradientInfluence (-1) 1 (normalizedAngle none) := rfl
    have e2 : (parseGradient vtriv 16
        { gtype := .linearGradient, orientation := some (.angular "180"),
          colorStops := [defaultStop] }
        1 1 false).corners.1
        = gradientInfluence (-1) 1 (normalizedAngle (some (.angular "180"))) := rfl
    rw [e1, e2, normalizedAngle_none, normalizedAngle_angular180,
      gradientInfluence_num, gradientInfluence_num, cos_three_half_pi, sin_three_half_pi,
      Real.cos_pi_div_two, Real.sin_pi_div_two,
      show ((-1 : ℝ)) * (-1) + 1 * 1 = 2 by norm_num, max_eq_left sqrt2_ge_one]
    intro h
    rw [JSNum.num.injEq] at h
    have hs0 : (0 : ℝ) < Real.sqrt 2 := sqrt2_pos
    have hs1 : (1 : ℝ) ≤ Real.sqrt 2 := sqrt2_ge_one
    have hinv : 1 / Real.sqrt 2 ≤ 1 := by
      rw [div_le_one hs0]
      exact hs1
    have hinv0 : 0 < 1 / Real.sqrt 2 := by positivity
    rw [show (-1 : ℝ) / Real.sqrt 2 * 0 + 1 / Real.sqrt 2 * (-1) = -(1 / Real.sqrt 2) by ring,
      show (-1 : ℝ) / Real.sqrt 2 * 0 + 1 / Real.sqrt 2 * 1 = 1 / Real.sqrt 2 by ring,
      max_eq_left (by linarith), min_eq_left (by linarith),
      max_eq_left (by linarith), min_eq_left (by linarith)] at h
    linarith

/-- C5 (amended): the default (missing) orientation matches the explicit
numeric angle `0deg` — not `180deg`: both normalize to `3π/2`, and
`parseGradient` returns identical results (hence identical corner blend
factors) for every stop list, size and `preserveAspect` flag. -/
theorem default_orientation_matches_0deg (values : String → ℝ × ℝ × ℝ) (remPx : ℝ)
    (stops : List ColorStopNode) (w h : ℝ) (pa : Bool) :
    normalizedAngle none = normalizedAngle (some (.angular "0")) ∧
    parseGradient values remPx
        { gtype := .linearGradient, orientation := none, colorStops := stops } w h pa
      = parseGradient values remPx
        { gtype := .linearGradient, orientation := some (.angular "0"),
          colorStops := stops } w h pa := by
  have hang : parseAngle (some (.angular "0")) = parseAngle none := by
    rw [parseAngle_angular_of_parse "0" 0 rfl,
      show parseAngle none = .num (Real.pi * 3 / 2) from rfl]
    congr 1
    norm_num
  have hnorm : normalizedAngle none = normalizedAngle (some (.angular "0")) := by
    rw [normalizedAngle, normalizedAngle, hang]
  refine ⟨hnorm, ?_⟩
  unfold parseGradient
  rw [show ({ gtype := .linearGradient, orientation := none,
              colorStops := stops } : GradientNode).orientation = none from rfl,
    show ({ gtype := .linearGradient, orientation := some (.angular "0"),
            colorStops := stops } : GradientNode).orientation = some (.angular "0") from rfl,
    hnorm]

/-! ### C3 -/

lemma angleParses_num (o : Option Orientation) (hp : angleParsesB o = true) :
    ∃ θ, normalizedAngle o = .num θ := by
  match o with
  | none => exact ⟨_, rfl⟩
  | some (.directional v) => exact ⟨_, rfl⟩
  | some (.angular s) =>
    simp only [angleParsesB, Option.isSome_iff_exists] at hp
    obtain ⟨n, hn⟩ := hp
    rw [normalizedAngle, parseAngle_angular_of_parse s n hn, jsMod_num]
    exact ⟨_, rfl⟩

lemma clamp_rescale_unit (D : ℝ) :
    0 ≤ min (max D (-1)) 1 * 0.5 + 0.5 ∧ min (max D (-1)) 1 * 0.5 + 0.5 ≤ 1 := by
  have h1 : (-1 : ℝ) ≤ min (max D (-1)) 1 := le_min (le_max_right _ _) (by norm_num)
  have h2 : min (max D (-1)) 1 ≤ 1 := min_le_right _ _
  constructor <;> linarith

lemma gradientInfluence_inUnit (w h θ : ℝ) : (gradientInfluence w h (.num θ)).inUnit := by
  rw [gradientInfluence_num]
  exact clamp_rescale_unit _

lemma gradientInfluence_inUnit_of (a b : ℝ) (o : Option Orientation) (θ : ℝ)
    (hθ : normalizedAngle o = .num θ) : (gradientInfluence a b (normalizedAngle o)).inUnit := by
  rw [hθ]
  exact gradientInfluence_inUnit a b θ

/-- C3 (counterexample): the corner invariant fails on a valid spec.  The
orientation literal `".5"` (reachable: `gradient-parser`'s angle grammar
admits leading-dot decimals, and the repository's stories build decimal angle
literals) is a single linear gradient with one stop, yet `parseInt('.5')` is
`NaN`, so all four corner blend factors returned by `parseGradient` are `NaN`
— none of them lies in `[0, 1]`. -/
theorem corner_factors_claim_false_on_dot_angle :
    ((parseGradient vtriv 16
      { gtype := .linearGradient, orientation := some (.angular ".5"),
        colorStops := [defaultStop] }
      3 4 true).corners.1 = .nan ∧
    (parseGradient vtriv 16
      { gtype := .linearGradient, orientation := some (.angular ".5"),
        colorStops := [defaultStop] }
      3 4 true).corners.2.1 = .nan ∧
    (parseGradient vtriv 16
      { gtype := .linearGradient, orientation := some (.angular ".5"),
        colorStops := [defaultStop] }
      3 4 true).corners.2.2.1 = .nan ∧
    (parseGradient vtriv 16
      { gtype := .linearGradient, orientation := some (.angular ".5"),
        colorStops := [defaultStop] }
      3 4 true).corners.2.2.2 = .nan) ∧
    ¬ ((parseGradient vtriv 16
      { gtype := .linearGradient, orientation := some (.angular ".5"),
        colorStops := [defaultStop] }
      3 4 true).corners.1).inUnit ∧
    ¬ ((parseGradient vtriv 16
      { gtype := .linearGradient, orientation := some (.angular ".5"),
        colorStops := [defaultStop] }
      3 4 true).corners.2.1).inUnit ∧
    ¬ ((parseGradient vtriv 16
      { gtype := .linearGradient, orientation := some (.angular ".5"),
        colorStops := [defaultStop] }
      3 4 true).corners.2.2.1).inUnit ∧
    ¬ ((parseGradient vtriv 16
      { gtype := .linearGradient, orientation := some (.angular ".5"),
        colorStops := [defaultStop] }
      3 4 true).corners.2.2.2).inUnit :=
  ⟨⟨rfl, rfl, rfl, rfl⟩, fun h => h, fun h => h, fun h => h, fun h => h⟩

/-- C3 (amended): for every gradient whose orientation angle literal is
readable by `parseInt` — which covers every named direction, the missing
orientation, and every angular literal with a leading (optionally signed)
digit run, but not a leading-dot decimal such as `".5"`, which instead makes
all four corners `NaN` — and every width, height and `preserveAspect` flag,
each of the four corner blend factors returned by `parseGradient` is a
finite number in `[0, 1]`. -/
theorem corner_factors_in_unit_interval (values : String → ℝ × ℝ × ℝ) (remPx : ℝ)
    (g : GradientNode) (w h : ℝ) (pa : Bool) (hp : angleParsesB g.orientation = true) :
    ((parseGradient values remPx g w h pa).corners.1).inUnit ∧
    ((parseGradient values remPx g w h pa).corners.2.1).inUnit ∧
    ((parseGradient values remPx g w h pa).corners.2.2.1).inUnit ∧
    ((parseGradient values remPx g w h pa).corners.2.2.2).inUnit := by
  obtain ⟨θ, hθ⟩ := angleParses_num g.orientation hp
  exact ⟨gradientInfluence_inUnit_of _ _ _ θ hθ, gradientInfluence_inUnit_of _ _ _ θ hθ,
    gradientInfluence_inUnit_of _ _ _ θ hθ, gradientInfluence_inUnit_of _ _ _ θ hθ⟩

/-- C3 (witness): the corner factors of `linear-gradient(90deg, ...)` on a
`3 × 4` surface with `preserveAspect` all lie in `[0, 1]`. -/
theorem corner_factors_in_unit_interval_witness :
    ((parseGradient vtriv 16
      { gtype := .linearGradient, orientation := some (.angular "90"),
        colorStops := [defaultStop] }
      3 4 true).corners.1).inUnit ∧
    ((parseGradient vtriv 16
      { gtype := .linearGradient, orientation := some (.angular "90"),
        colorStops := [defaultStop] }
      3 4 true).corners.2.1).inUnit ∧
    ((parseGradient vtriv 16
      { gtype := .linearGradient, orientation := some (.angular "90"),
        colorStops := [defaultStop] }
      3 4 true).corners.2.2.1).inUnit ∧
    ((parseGradient vtriv 16
      { gtype := .linearGradient, orientation := some (.angular "90"),
        colorStops := [defaultStop] }
      3 4 true).corners.2.2.2).inUnit :=
  corner_factors_in_unit_interval vtriv 16 _ 3 4 true rfl

/-! ### C6 -/

lemma gi_spec_false (θ w h cx cy : ℝ) (harg : cx * cx + cy * cy = 2) :
    gradientInfluence cx cy (.num θ) = .num (specCornerAmended θ w h false cx cy) := by
  rw [gradientInfluence_num]
  simp only [specCornerAmended, Bool.false_eq_true, if_false]
  congr 1
  rw [harg, max_eq_left sqrt2_ge_one]
  exact clampRescale_congr (by ring)

lemma gi_spec_true (θ w h a b cx cy : ℝ) (ha : a = cx * w) (hb : b = cy * h)
    (harg : a * a + b * b = w * w + h * h) :
    gradientInfluence a b (.num θ) = .num (specCornerAmended θ w h true cx cy) := by
  rw [gradientInfluence_num]
  simp only [specCornerAmended, if_true]
  congr 1
  rw [harg]
  exact clampRescale_congr (by rw [ha, hb]; ring)

/-- C6 (counterexample): with `preserveAspect = false` the code still
normalizes the corner vector by `√2`, so the claim's unnormalized formula is
wrong: for orientation `right` (angle 0) on a `3 × 4` surface, the top-right
corner factor is `1/(2√2) + 1/2 < 1`, while the claimed formula gives `1`. -/
theorem corner_formula_claim_false :
    (parseGradient vtriv 16
      { gtype := .linearGradient, orientation := some (.directional .right),
        colorStops := [defaultStop] }
      3 4 false).corners.2.1
      ≠ .num (specCornerClaim 0 3 4 false 1 1) := by
  have e : (parseGradient vtriv 16
      { gtype := .linearGradient, orientation := some (.directional .right),
        colorStops := [defaultStop] }
      3 4 false).corners.2.1
      = gradientInfluence 1 1 (normalizedAngle (some (.directional .right))) := rfl
  rw [e, normalizedAngle_right, gradientInfluence_num,
    show (1 : ℝ) * 1 + 1 * 1 = 2 by norm_num, max_eq_left sqrt2_ge_one,
    Real.cos_zero, Real.sin_zero]
  have hval : specCornerClaim 0 3 4 false 1 1 = 1 := by
    simp only [specCornerClaim, Bool.false_eq_true, if_false, Real.cos_zero, Real.sin_zero]
    norm_num
  rw [hval]
  intro h
  rw [JSNum.num.injEq] at h
  have hinv : 1 / Real.sqrt 2 < 1 := (div_lt_one sqrt2_pos).2 sqrt2_gt_one
  have hinv0 : 0 < 1 / Real.sqrt 2 := by positivity
  rw [show (1 : ℝ) / Real.sqrt 2 * 1 + 1 / Real.sqrt 2 * 0 = 1 / Real.sqrt 2 by ring,
    max_eq_left (by linarith), min_eq_left (by linarith)] at h
  linarith

/-- C6 (amended): each corner blend factor equals
`clamp(dot((cos θ, sin θ), c), -1, 1) * 0.5 + 0.5` where `θ` is the
normalized angle and the corner vector `c` is `(±width, ±height)` divided by
`max(sqrt(width² + height²), 1)` when `preserveAspect` is true, and the
normalized `(±1, ±1) / √2` when it is false (the code normalizes the corner
vector in that case too). -/
theorem corner_formula_amended (values : String → ℝ × ℝ × ℝ) (remPx : ℝ)
    (g : GradientNode) (w h : ℝ) (pa : Bool) (θ : ℝ)
    (hθ : normalizedAngle g.orientation = .num θ) :
    (parseGradient values remPx g w h pa).corners
      = (.num (specCornerAmended θ w h pa (-1) 1),
         .num (specCornerAmended θ w h pa 1 1),
         .num (specCornerAmended θ w h pa (-1) (-1)),
         .num (specCornerAmended θ w h pa 1 (-1))) := by
  cases pa with
  | false =>
    have hc : (parseGradient values remPx g w h false).corners
        = (gradientInfluence (-1) 1 (normalizedAngle g.orientation),
           gradientInfluence 1 1 (normalizedAngle g.orientation),
           gradientInfluence (-1) (-1) (normalizedAngle g.orientation),
           gradientInfluence 1 (-1) (normalizedAngle g.orientation)) := rfl
    rw [hc, hθ, gi_spec_false θ w h (-1) 1 (by norm_num),
      gi_spec_false θ w h 1 1 (by norm_num), gi_spec_false θ w h (-1) (-1) (by norm_num),
      gi_spec_false θ w h 1 (-1) (by norm_num)]
  | true =>
    have hc : (parseGradient values remPx g w h true).corners
        = (gradientInfluence (-w) h (normalizedAngle g.orientation),
           gradientInfluence w h (normalizedAngle g.orientation),
           gradientInfluence (-w) (-h) (normalizedAngle g.orientation),
           gradientInfluence w (-h) (normalizedAngle g.orientation)) := rfl
    rw [hc, hθ, gi_spec_true θ w h (-w) h (-1) 1 (by ring) (by ring) (by ring),
      gi_spec_true θ w h w h 1 1 (by ring) (by ring) (by ring),
      gi_spec_true θ w h (-w) (-h) (-1) (-1) (by ring) (by ring) (by ring),
      gi_spec_true θ w h w (-h) 1 (-1) (by ring) (by ring) (by ring)]

/-- C6 (witness for the amended theorem): orientation `right` (normalized
angle 0) on a `3 × 4` surface with `preserveAspect = false`. -/
theorem corner_formula_amended_witness :
    (parseGradient vtriv 16
      { gtype := .linearGradient, orientation := some (.directional .right),
        colorStops := [defaultStop] }
      3 4 false).corners
      = (.num (specCornerAmended 0 3 4 false (-1) 1),
         .num (specCornerAmended 0 3 4 false 1 1),
         .num (specCornerAmended 0 3 4 false (-1) (-1)),
         .num (specCornerAmended 0 3 4 false 1 (-1))) :=
  corner_formula_amended vtriv 16 _ 3 4 false 0 normalizedAngle_right

end ReactGrainy
